import Mathlib

/-!
Verification of the occwl topological-entity query layer (occwl/edge.py,
occwl/vertex.py) and the face-adjacency graph construction it feeds
(examples/ex3_solid_to_faceadj_graph.py).

The CAD kernel (pythonocc / OpenCascade) is an external collaborator: the
facts the kernel reports about a topological handle (curve existence, curve
classification tag, derivatives, parameter bounds, lengths, flags, the
bounded hash code of the handle) are modelled as fields of the handle
record, and the occwl wrapper methods are translated line by line from
src/occwl/edge.py and src/occwl/vertex.py against that record.  Python
exceptions become `Except PyErr`.  Real geometry uses `ℝ` (the floating
point of the source is idealised).
-/

namespace Occwl

/-- A 3D point or vector (numpy 3-array / gp_Pnt / gp_Vec in the source). -/
@[ext]
structure Vec3 where
  x : ℝ
  y : ℝ
  z : ℝ

/-- The zero vector / origin point, `np.array([0,0,0])` in the source. -/
def vzero : Vec3 := ⟨0, 0, 0⟩

/-- Vector negation, `-tangent` in the source. -/
def vneg (v : Vec3) : Vec3 := ⟨-v.x, -v.y, -v.z⟩

/-- Scalar multiple of a vector. -/
def vsmul (c : ℝ) (v : Vec3) : Vec3 := ⟨c * v.x, c * v.y, c * v.z⟩

/-- Euclidean magnitude of a vector (`gp_Vec.Magnitude` of the kernel). -/
noncomputable def vnorm (v : Vec3) : ℝ := Real.sqrt (v.x ^ 2 + v.y ^ 2 + v.z ^ 2)

/-- Structural kind of a TopoDS handle (`TopoDS_Vertex`, `TopoDS_Edge`, ...).
`isinstance` checks in the source test this kind. -/
inductive ShapeKind
  | vertex
  | edge
  | face
  | wire
  | shell
  | solid
  | compound
deriving DecidableEq

/-- Python exceptions raised by the wrapped code. `valueError` keeps the
message and the offending curve-type tag separately, mirroring
`ValueError("Unknown curve type: ", curv_type)` which carries both. -/
inductive PyErr
  | valueError (msg : String) (tag : Nat)
  | assertionError
  | notImplementedError
deriving DecidableEq

/-- Model of a kernel handle (`TopoDS_Shape`) together with every fact the
external kernel reports about it when the occwl wrappers query it:

* `kind` — structural kind, tested by `isinstance` at wrapper construction;
* `shapeId` — the structural identity of the underlying `TShape` (two
  handles are structurally identical exactly when the whole records agree);
* `hashCode` — the kernel's bounded `__hash__` of the handle; it is a hash,
  not an injection, so distinct handles may share a `hashCode`;
* `orient` — `Orientation()` as its integer value (`TopAbs_REVERSED = 1`);
* `is3dCurve` — `BRepAdaptor_Curve(...).Is3DCurve()`;
* `curveTypeInt` — `BRepAdaptor_Curve(...).GetType()` as its integer value
  (the `GeomAbs_*` enum);
* `curveVal` — `curve().Value(u)`;
* `curveD1` — the derivative vector written by `curve().D1(u, pt, der)`;
* `umin`, `umax` — the parameter bounds returned by `BRep_Tool_Curve`;
* `curveLen` — `GCPnts_AbscissaPoint().Length(adaptor, a, b, tolerance)`;
* `pnt` — `BRep_Tool.Pnt` for a vertex handle. -/
structure TopoDSShape where
  kind : ShapeKind
  shapeId : Nat
  hashCode : Nat
  orient : Nat
  is3dCurve : Bool
  curveTypeInt : Nat
  curveVal : ℝ → Vec3
  curveD1 : ℝ → Vec3
  umin : ℝ
  umax : ℝ
  curveLen : ℝ → ℝ → ℝ → ℝ
  pnt : Vec3

/-- GeomAbs_Line of the kernel's GeomAbs_CurveType enum. -/
def GeomAbs_Line : Nat := 0
/-- GeomAbs_Circle. -/
def GeomAbs_Circle : Nat := 1
/-- GeomAbs_Ellipse. -/
def GeomAbs_Ellipse : Nat := 2
/-- GeomAbs_Hyperbola. -/
def GeomAbs_Hyperbola : Nat := 3
/-- GeomAbs_Parabola. -/
def GeomAbs_Parabola : Nat := 4
/-- GeomAbs_BezierCurve. -/
def GeomAbs_BezierCurve : Nat := 5
/-- GeomAbs_BSplineCurve. -/
def GeomAbs_BSplineCurve : Nat := 6
/-- GeomAbs_OffsetCurve. -/
def GeomAbs_OffsetCurve : Nat := 7
/-- GeomAbs_OtherCurve. -/
def GeomAbs_OtherCurve : Nat := 8
/-- TopAbs_REVERSED of the kernel's TopAbs_Orientation enum. -/
def TopAbs_REVERSED : Nat := 1

/-- The wrapper class `Edge` of src/occwl/edge.py: stores the handle passed
to `__init__` in `self._edge`. -/
structure Edge where
  _edge : TopoDSShape

/-- The wrapper class `Vertex` of src/occwl/vertex.py: stores the handle
passed to `__init__` in `self._vertex`. -/
structure Vertex where
  _vertex : TopoDSShape

/-- `Edge.__init__`: `assert isinstance(topods_edge, TopoDS_Edge)` then
store the handle.  A failed assert raises `AssertionError`, so construction
is modelled as returning `Except`. -/
def edgeInit (topods_edge : TopoDSShape) : Except PyErr Edge :=
  if topods_edge.kind = ShapeKind.edge then Except.ok ⟨topods_edge⟩
  else Except.error PyErr.assertionError

/-- `Vertex.__init__`: `assert isinstance(topods_vertex, TopoDS_Vertex)`
then store the handle. -/
def vertexInit (topods_vertex : TopoDSShape) : Except PyErr Vertex :=
  if topods_vertex.kind = ShapeKind.vertex then Except.ok ⟨topods_vertex⟩
  else Except.error PyErr.assertionError

/-- `Edge.topods_edge`: return `self._edge`. -/
def Edge.topods_edge (e : Edge) : TopoDSShape := e._edge

/-- `Edge.hash`: `hash(self.topods_edge())`, i.e. the kernel handle's
bounded hash code. -/
def Edge.hash (e : Edge) : Nat := e.topods_edge.hashCode

/-- `Edge.has_curve`: `BRepAdaptor_Curve(self.topods_edge()).Is3DCurve()`. -/
def Edge.has_curve (e : Edge) : Bool := e.topods_edge.is3dCurve

/-- `Edge.reversed`: `self.topods_edge().Orientation() == TopAbs_REVERSED`. -/
def Edge.reversed (e : Edge) : Bool := e.topods_edge.orient = TopAbs_REVERSED

/-- `Edge.curve`: `BRep_Tool_Curve(self._edge)[0]`, the kernel curve — in
this model, its evaluator. -/
def Edge.curve (e : Edge) : ℝ → Vec3 := e._edge.curveVal

/-- `Edge.point`: if `has_curve()` then `curve().Value(u)`, else the origin
`np.array([0,0,0])`.  Neither branch can raise. -/
def Edge.point (e : Edge) (u : ℝ) : Except PyErr Vec3 :=
  if e.has_curve then Except.ok (e.curve u)
  else Except.ok vzero

/-- `gp_Vec.Normalize` of the kernel: divides the vector by its magnitude
and raises (`gp_VectorWithNullMagnitude`, modelled as a `valueError`) when
the magnitude is null. -/
noncomputable def gpVecNormalize (v : Vec3) : Except PyErr Vec3 :=
  if vnorm v = 0 then Except.error (PyErr.valueError "gp_VectorWithNullMagnitude" 0)
  else Except.ok (vsmul (vnorm v)⁻¹ v)

/-- `Edge.tangent`: if `has_curve()`, run `D1`, `Normalize` the derivative,
negate it when `reversed()`; otherwise return the zero vector. -/
noncomputable def Edge.tangent (e : Edge) (u : ℝ) : Except PyErr Vec3 :=
  if e.has_curve then
    match gpVecNormalize (e._edge.curveD1 u) with
    | Except.ok der => Except.ok (if e.reversed then vneg der else der)
    | Except.error err => Except.error err
  else Except.ok vzero

/-- `Edge.first_derivative`: if `has_curve()`, run `D1` and return the
derivative unchanged; otherwise return the zero vector. -/
def Edge.first_derivative (e : Edge) (u : ℝ) : Except PyErr Vec3 :=
  if e.has_curve then Except.ok (e._edge.curveD1 u)
  else Except.ok vzero

/-- Modelled from the spec: the class `occwl.geometry.interval.Interval`
is imported by src/occwl/edge.py but its module is not under src/.  Per
the spec, `u_bounds()` "returns an empty interval" for an edge with no
curve (built by the no-argument constructor `Interval()`) and otherwise
"a 1D interval [u_min, u_max]", so an interval is either empty or a pair
of endpoints. -/
inductive Interval
  | empty
  | of (a b : ℝ)

/-- `Edge.u_bounds`: the empty interval when there is no curve, otherwise
`Interval(umin, umax)` with the bounds from `BRep_Tool_Curve`. -/
def Edge.u_bounds (e : Edge) : Interval :=
  if !e.has_curve then Interval.empty
  else Interval.of e.topods_edge.umin e.topods_edge.umax

/-- `Edge.length`: `0.0` when there is no curve, otherwise the kernel's
`GCPnts_AbscissaPoint().Length` over `u_bounds()` at the given tolerance
(default `1e-9` in the source). -/
def Edge.length (e : Edge) (tolerance : ℝ) : ℝ :=
  if !e.has_curve then 0
  else
    match e.u_bounds with
    | Interval.of a b => e.topods_edge.curveLen a b tolerance
    | Interval.empty => 0

/-- `Edge.twin_edge`: `raise NotImplementedError`, unconditionally. -/
def Edge.twin_edge (_e : Edge) : Except PyErr Edge :=
  Except.error PyErr.notImplementedError

/-- The per-kind curve geometry returned by `Edge.specific_curve`: one
constructor for each adaptor accessor the source calls (`Line()`,
`Circle()`, ..., `OffsetCurve()`).  The geometric payload lives in the
external kernel. -/
inductive SpecificCurve
  | line
  | circle
  | ellipse
  | hyperbola
  | parabola
  | bezierCurve
  | bsplineCurve
  | offsetCurve
deriving DecidableEq

/-- `Edge.specific_curve`: reads `BRepAdaptor_Curve(self._edge).GetType()`
and dispatches through the source's chain of `if curv_type == GeomAbs_*`
tests; when no branch matches (including `GeomAbs_OtherCurve`) it reaches
`raise ValueError("Unknown curve type: ", curv_type)`. -/
def Edge.specific_curve (e : Edge) : Except PyErr SpecificCurve :=
  let curv_type := e._edge.curveTypeInt
  if curv_type = GeomAbs_Line then Except.ok SpecificCurve.line
  else if curv_type = GeomAbs_Circle then Except.ok SpecificCurve.circle
  else if curv_type = GeomAbs_Ellipse then Except.ok SpecificCurve.ellipse
  else if curv_type = GeomAbs_Hyperbola then Except.ok SpecificCurve.hyperbola
  else if curv_type = GeomAbs_Parabola then Except.ok SpecificCurve.parabola
  else if curv_type = GeomAbs_BezierCurve then Except.ok SpecificCurve.bezierCurve
  else if curv_type = GeomAbs_BSplineCurve then Except.ok SpecificCurve.bsplineCurve
  else if curv_type = GeomAbs_OffsetCurve then Except.ok SpecificCurve.offsetCurve
  else Except.error (PyErr.valueError "Unknown curve type: " curv_type)

/-- `Edge.curve_type`: reads `BRepAdaptor_Curve(self._edge).GetType()` and
maps it to a string through the source's chain of `if` tests, falling
through to `return "unknown"` when no branch matches.  It raises nothing. -/
def Edge.curve_type (e : Edge) : String :=
  let curv_type := e._edge.curveTypeInt
  if curv_type = GeomAbs_Line then "line"
  else if curv_type = GeomAbs_Circle then "circle"
  else if curv_type = GeomAbs_Ellipse then "ellipse"
  else if curv_type = GeomAbs_Hyperbola then "hyperbola"
  else if curv_type = GeomAbs_Parabola then "parabola"
  else if curv_type = GeomAbs_BezierCurve then "bezier"
  else if curv_type = GeomAbs_BSplineCurve then "bspline"
  else if curv_type = GeomAbs_OffsetCurve then "offset"
  else if curv_type = GeomAbs_OtherCurve then "other"
  else "unknown"

/-- `Vertex.topods_vertex`: return `self._vertex`. -/
def Vertex.topods_vertex (v : Vertex) : TopoDSShape := v._vertex

/-- `Vertex.topods_entity`: return `self._vertex`. -/
def Vertex.topods_entity (v : Vertex) : TopoDSShape := v._vertex

/-- `Vertex.__hash__`: `self.topods_vertex().__hash__()`, the kernel
handle's bounded hash code. -/
def Vertex.hash (v : Vertex) : Nat := v.topods_vertex.hashCode

/-- `Vertex.__eq__`: compares the two handles' `__hash__` values —
`self.topods_vertex().__hash__() == other.topods_vertex().__hash__()`. -/
def Vertex.eq (v other : Vertex) : Bool :=
  v.topods_vertex.hashCode = other.topods_vertex.hashCode

/-- `Vertex.point`: `BRep_Tool.Pnt(self.topods_vertex())` as a coordinate
triple. -/
def Vertex.point (v : Vertex) : Vec3 := v.topods_vertex.pnt

/-- One call to a public query method of the `Edge` wrapper, with its
arguments.  `seamQ` and `continuityQ` carry the face handles the source
methods receive. -/
inductive EdgeQuery
  | pointQ (u : ℝ)
  | tangentQ (u : ℝ)
  | firstDerivativeQ (u : ℝ)
  | lengthQ (tolerance : ℝ)
  | curveQ
  | specificCurveQ
  | hasCurveQ
  | uBoundsQ
  | twinEdgeQ
  | convexQ
  | closedQ
  | seamQ (face : TopoDSShape)
  | periodicQ
  | rationalQ
  | continuityQ (face1 face2 : TopoDSShape)
  | reversedQ
  | curveTypeQ
  | hashQ
  | topodsEdgeQ

/-- One call to a public query method of the `Vertex` wrapper. -/
inductive VertexQuery
  | pointQ
  | hashQ
  | eqQ (other : TopoDSShape)
  | topodsVertexQ
  | topodsEntityQ

/-- The `Edge` wrapper state after running one public query: every method
body of src/occwl/edge.py only reads `self._edge` (no method assigns any
attribute of `self`), so each call leaves the wrapper unchanged. -/
def edgeQueryState (e : Edge) (q : EdgeQuery) : Edge :=
  match q with
  | EdgeQuery.pointQ _ => e
  | EdgeQuery.tangentQ _ => e
  | EdgeQuery.firstDerivativeQ _ => e
  | EdgeQuery.lengthQ _ => e
  | EdgeQuery.curveQ => e
  | EdgeQuery.specificCurveQ => e
  | EdgeQuery.hasCurveQ => e
  | EdgeQuery.uBoundsQ => e
  | EdgeQuery.twinEdgeQ => e
  | EdgeQuery.convexQ => e
  | EdgeQuery.closedQ => e
  | EdgeQuery.seamQ _ => e
  | EdgeQuery.periodicQ => e
  | EdgeQuery.rationalQ => e
  | EdgeQuery.continuityQ _ _ => e
  | EdgeQuery.reversedQ => e
  | EdgeQuery.curveTypeQ => e
  | EdgeQuery.hashQ => e
  | EdgeQuery.topodsEdgeQ => e

/-- The `Vertex` wrapper state after running one public query: every method
body of src/occwl/vertex.py only reads `self._vertex`. -/
def vertexQueryState (v : Vertex) (q : VertexQuery) : Vertex :=
  match q with
  | VertexQuery.pointQ => v
  | VertexQuery.hashQ => v
  | VertexQuery.eqQ _ => v
  | VertexQuery.topodsVertexQ => v
  | VertexQuery.topodsEntityQ => v

/-- Modelled from the spec: `occwl.graph.face_adjacency` and `occwl.solid.
Solid` are not under src/ (only the caller examples/ex3_solid_to_faceadj_
graph.py is).  Per spec section 4.4, the builder consumes a solid as the
list of its faces in the kernel's deterministic traversal order, together
with, for each distinct topological edge, the list of faces that reference
it (its "mates"). -/
structure SpecSolid where
  faces : List Nat
  edgeMates : List (List Nat)

/-- Modelled from the spec: the graph returned by `face_adjacency` — nodes
are the solid's faces, each carrying its builder-assigned index; graph
edges are unordered pairs of node indices, stored here as index pairs. -/
structure FaceAdjGraph where
  nodes : List (Nat × Nat)
  edges : List (Nat × Nat)

/-- Modelled from the spec: `face_adjacency(solid, self_loops)` per spec
section 4.4 — (1) enumerate faces in traversal order assigning indices
from 0; (2-4) for each topological edge with exactly two mates (f1, f2),
emit a graph edge between their nodes when f1 ≠ f2, and a self-loop only
when `self_loops` is true; edges with another mate count produce nothing. -/
def face_adjacency (solid : SpecSolid) (self_loops : Bool) : FaceAdjGraph :=
  let nodes := solid.faces.enum.map (fun p => (p.2, p.1))
  let nodeIdx := fun (f : Nat) => solid.faces.indexOf f
  let edges := solid.edgeMates.filterMap (fun mates =>
    match mates with
    | [f1, f2] =>
      if f1 ≠ f2 then some (nodeIdx f1, nodeIdx f2)
      else if self_loops then some (nodeIdx f1, nodeIdx f1)
      else none
    | _ => none)
  ⟨nodes, edges⟩

/-! Concrete kernel handles used to exercise the definitions. -/

/-- A baseline edge handle with no 3D curve and all kernel data trivial. -/
def baseShape : TopoDSShape :=
  { kind := ShapeKind.edge
    shapeId := 0
    hashCode := 0
    orient := 0
    is3dCurve := false
    curveTypeInt := 0
    curveVal := fun _ => vzero
    curveD1 := fun _ => vzero
    umin := 0
    umax := 0
    curveLen := fun _ _ _ => 0
    pnt := vzero }

/-- An edge handle whose kernel classification is `GeomAbs_OtherCurve`. -/
def otherCurveShape : TopoDSShape := { baseShape with curveTypeInt := GeomAbs_OtherCurve }

/-- An edge handle whose kernel classification tag (9) lies outside the
`GeomAbs_CurveType` enum entirely. -/
def unknownTagShape : TopoDSShape := { baseShape with curveTypeInt := 9 }

/-- An edge handle classified as a line. -/
def lineShape : TopoDSShape := { baseShape with curveTypeInt := GeomAbs_Line, is3dCurve := true }

/-- A vertex handle at coordinates (1, 2, 3) with kernel hash code 7. -/
def vertHandleA : TopoDSShape :=
  { baseShape with kind := ShapeKind.vertex, shapeId := 10, hashCode := 7, pnt := ⟨1, 2, 3⟩ }

/-- A structurally distinct vertex handle (different `shapeId`) at the same
coordinates whose bounded kernel hash code collides with `vertHandleA`. -/
def vertHandleB : TopoDSShape := { vertHandleA with shapeId := 11 }

/-- A reversed edge handle with a 3D curve whose derivative is (3, 0, 0). -/
def c9Shape : TopoDSShape :=
  { baseShape with is3dCurve := true, orient := 1, curveD1 := fun _ => ⟨3, 0, 0⟩ }

/-! Helper lemmas. -/

/-- The magnitude of a vector vanishes exactly on the zero vector. -/
lemma vnorm_eq_zero_iff (v : Vec3) : vnorm v = 0 ↔ v = vzero := by
  unfold vnorm vzero
  rw [Real.sqrt_eq_zero (by positivity)]
  constructor
  · intro h
    have hx2 : v.x ^ 2 = 0 := by nlinarith [sq_nonneg v.x, sq_nonneg v.y, sq_nonneg v.z]
    have hy2 : v.y ^ 2 = 0 := by nlinarith [sq_nonneg v.x, sq_nonneg v.y, sq_nonneg v.z]
    have hz2 : v.z ^ 2 = 0 := by nlinarith [sq_nonneg v.x, sq_nonneg v.y, sq_nonneg v.z]
    exact Vec3.ext ((pow_eq_zero_iff two_ne_zero).mp hx2)
      ((pow_eq_zero_iff two_ne_zero).mp hy2) ((pow_eq_zero_iff two_ne_zero).mp hz2)
  · intro h
    rw [h]
    norm_num

/-- Each single edge query leaves the wrapper unchanged. -/
lemma edgeQueryState_eq (e : Edge) (q : EdgeQuery) : edgeQueryState e q = e := by
  cases q <;> rfl

/-- Each single vertex query leaves the wrapper unchanged. -/
lemma vertexQueryState_eq (v : Vertex) (q : VertexQuery) : vertexQueryState v q = v := by
  cases q <;> rfl

/-- A sequence of edge queries leaves the wrapper unchanged. -/
lemma edge_foldl_fixed (e : Edge) (qs : List EdgeQuery) :
    qs.foldl edgeQueryState e = e := by
  induction qs generalizing e with
  | nil => rfl
  | cons q rest ih => rw [List.foldl_cons, edgeQueryState_eq]; exact ih e

/-- A sequence of vertex queries leaves the wrapper unchanged. -/
lemma vertex_foldl_fixed (v : Vertex) (qs : List VertexQuery) :
    qs.foldl vertexQueryState v = v := by
  induction qs generalizing v with
  | nil => rfl
  | cons q rest ih => rw [List.foldl_cons, vertexQueryState_eq]; exact ih v

/-! The claims. -/

/-- C8: `twin_edge()` is unimplemented in this core — for every `Edge`,
calling it raises `NotImplementedError` and never returns a value. -/
theorem twin_edge_unimplemented (e : Edge) :
    e.twin_edge = Except.error PyErr.notImplementedError := rfl

/-- C7: for every solid, the number of nodes of the face adjacency graph
equals the number of the solid's faces, under either `self_loops` setting. -/
theorem face_adjacency_node_count (solid : SpecSolid) (self_loops : Bool) :
    (face_adjacency solid self_loops).nodes.length = solid.faces.length := by
  simp [face_adjacency]

/-- C10: every public query on an `Edge` or `Vertex` wrapper is read-only:
after any sequence of queries, `topods_edge()` (resp. `topods_vertex()`)
still returns the handle supplied at construction and `hash` is unchanged
on every call. -/
theorem queries_read_only (h v : TopoDSShape)
    (eqs : List EdgeQuery) (vqs : List VertexQuery) :
    (eqs.foldl edgeQueryState (Edge.mk h)).topods_edge = h ∧
    (eqs.foldl edgeQueryState (Edge.mk h)).hash = (Edge.mk h).hash ∧
    (vqs.foldl vertexQueryState (Vertex.mk v)).topods_vertex = v ∧
    (vqs.foldl vertexQueryState (Vertex.mk v)).hash = (Vertex.mk v).hash := by
  rw [edge_foldl_fixed, vertex_foldl_fixed]
  exact ⟨rfl, rfl, rfl, rfl⟩

/-- C6: constructing an `Edge` (resp. `Vertex`) wrapper succeeds exactly on
a handle that is structurally an edge (resp. vertex); on success the
wrapper holds exactly the supplied handle and on any other kind the
constructor itself raises `AssertionError`, so no partially-usable object
is ever returned and the failure is never deferred. -/
theorem wrapper_init_fail_fast (s t : TopoDSShape) :
    ((∃ e, edgeInit s = Except.ok e) ↔ s.kind = ShapeKind.edge) ∧
    (∀ e, edgeInit s = Except.ok e → e.topods_edge = s) ∧
    (s.kind ≠ ShapeKind.edge → edgeInit s = Except.error PyErr.assertionError) ∧
    ((∃ w, vertexInit t = Except.ok w) ↔ t.kind = ShapeKind.vertex) ∧
    (∀ w, vertexInit t = Except.ok w → w.topods_vertex = t) ∧
    (t.kind ≠ ShapeKind.vertex → vertexInit t = Except.error PyErr.assertionError) := by
  unfold edgeInit vertexInit
  by_cases hs : s.kind = ShapeKind.edge <;> by_cases ht : t.kind = ShapeKind.vertex <;>
    simp [hs, ht, Edge.topods_edge, Vertex.topods_vertex]

/-- Witness for C6 at concrete handles: an edge handle rejected by the
`Vertex` constructor and a vertex handle rejected by the `Edge`
constructor. -/
theorem wrapper_init_fail_fast_w :
    edgeInit vertHandleA = Except.error PyErr.assertionError ∧
    vertexInit baseShape = Except.error PyErr.assertionError :=
  ⟨(wrapper_init_fail_fast vertHandleA baseShape).2.2.1 (by decide),
   (wrapper_init_fail_fast vertHandleA baseShape).2.2.2.2.2 (by decide)⟩

/-- C5: for every edge without a 3D curve, `length(tolerance)` returns 0
for every tolerance and `u_bounds()` returns the empty interval. -/
theorem no_curve_length_zero_ubounds_empty (e : Edge) (tolerance : ℝ)
    (h : e.has_curve = false) :
    e.length tolerance = 0 ∧ e.u_bounds = Interval.empty := by
  constructor
  · simp [Edge.length, h]
  · simp [Edge.u_bounds, h]

/-- Witness for C5 at a concrete curveless edge and tolerance 1e-9. -/
theorem no_curve_length_zero_ubounds_empty_w :
    (Edge.mk baseShape).has_curve = false ∧
    ((Edge.mk baseShape).length (1 / 1000000000) = 0 ∧
      (Edge.mk baseShape).u_bounds = Interval.empty) :=
  ⟨rfl, no_curve_length_zero_ubounds_empty (Edge.mk baseShape) (1 / 1000000000) rfl⟩

/-- C3: for every edge without a 3D curve and every parameter `u`,
`point(u)` returns the origin, `tangent(u)` and `first_derivative(u)`
return the zero vector, and none of the three calls raises. -/
theorem no_curve_point_tangent_deriv (e : Edge) (u : ℝ) (h : e.has_curve = false) :
    e.point u = Except.ok vzero ∧
    e.tangent u = Except.ok vzero ∧
    e.first_derivative u = Except.ok vzero := by
  refine ⟨?_, ?_, ?_⟩
  · simp [Edge.point, h]
  · simp [Edge.tangent, h]
  · simp [Edge.first_derivative, h]

/-- Witness for C3 at a concrete curveless edge and parameter 0. -/
theorem no_curve_point_tangent_deriv_w :
    (Edge.mk baseShape).has_curve = false ∧
    ((Edge.mk baseShape).point 0 = Except.ok vzero ∧
      (Edge.mk baseShape).tangent 0 = Except.ok vzero ∧
      (Edge.mk baseShape).first_derivative 0 = Except.ok vzero) :=
  ⟨rfl, no_curve_point_tangent_deriv (Edge.mk baseShape) 0 rfl⟩

/-- C1 counterexample: `GeomAbs_OtherCurve` ("other") is in the claim's
recognized set, yet `specific_curve()` raises on it instead of returning a
per-kind geometry. -/
theorem specific_curve_other_raises :
    otherCurveShape.curveTypeInt = GeomAbs_OtherCurve ∧
    (Edge.mk otherCurveShape).specific_curve =
      Except.error (PyErr.valueError "Unknown curve type: " GeomAbs_OtherCurve) :=
  ⟨rfl, rfl⟩

/-- C1 amended: `specific_curve()` returns the per-kind curve geometry for
each of the eight tags line, circle, ellipse, hyperbola, parabola, bezier,
bspline and offset, and raises a `ValueError` naming the offending tag for
every other tag — including the recognized tag "other". -/
theorem specific_curve_branches (e : Edge) :
    (e._edge.curveTypeInt = GeomAbs_Line →
      e.specific_curve = Except.ok SpecificCurve.line) ∧
    (e._edge.curveTypeInt = GeomAbs_Circle →
      e.specific_curve = Except.ok SpecificCurve.circle) ∧
    (e._edge.curveTypeInt = GeomAbs_Ellipse →
      e.specific_curve = Except.ok SpecificCurve.ellipse) ∧
    (e._edge.curveTypeInt = GeomAbs_Hyperbola →
      e.specific_curve = Except.ok SpecificCurve.hyperbola) ∧
    (e._edge.curveTypeInt = GeomAbs_Parabola →
      e.specific_curve = Except.ok SpecificCurve.parabola) ∧
    (e._edge.curveTypeInt = GeomAbs_BezierCurve →
      e.specific_curve = Except.ok SpecificCurve.bezierCurve) ∧
    (e._edge.curveTypeInt = GeomAbs_BSplineCurve →
      e.specific_curve = Except.ok SpecificCurve.bsplineCurve) ∧
    (e._edge.curveTypeInt = GeomAbs_OffsetCurve →
      e.specific_curve = Except.ok SpecificCurve.offsetCurve) ∧
    (GeomAbs_OtherCurve ≤ e._edge.curveTypeInt →
      e.specific_curve =
        Except.error (PyErr.valueError "Unknown curve type: " e._edge.curveTypeInt)) := by
  refine ⟨?_, ?_, ?_, ?_, ?_, ?_, ?_, ?_, ?_⟩ <;> intro h
  case _ => simp [Edge.specific_curve, h, GeomAbs_Line]
  case _ => simp [Edge.specific_curve, h, GeomAbs_Line, GeomAbs_Circle]
  case _ => simp [Edge.specific_curve, h, GeomAbs_Line, GeomAbs_Circle, GeomAbs_Ellipse]
  case _ =>
    simp [Edge.specific_curve, h, GeomAbs_Line, GeomAbs_Circle, GeomAbs_Ellipse,
      GeomAbs_Hyperbola]
  case _ =>
    simp [Edge.specific_curve, h, GeomAbs_Line, GeomAbs_Circle, GeomAbs_Ellipse,
      GeomAbs_Hyperbola, GeomAbs_Parabola]
  case _ =>
    simp [Edge.specific_curve, h, GeomAbs_Line, GeomAbs_Circle, GeomAbs_Ellipse,
      GeomAbs_Hyperbola, GeomAbs_Parabola, GeomAbs_BezierCurve]
  case _ =>
    simp [Edge.specific_curve, h, GeomAbs_Line, GeomAbs_Circle, GeomAbs_Ellipse,
      GeomAbs_Hyperbola, GeomAbs_Parabola, GeomAbs_BezierCurve, GeomAbs_BSplineCurve]
  case _ =>
    simp [Edge.specific_curve, h, GeomAbs_Line, GeomAbs_Circle, GeomAbs_Ellipse,
      GeomAbs_Hyperbola, GeomAbs_Parabola, GeomAbs_BezierCurve, GeomAbs_BSplineCurve,
      GeomAbs_OffsetCurve]
  case _ =>
    have h0 : e._edge.curveTypeInt ≠ 0 := by
      unfold GeomAbs_OtherCurve at h; omega
    have h1 : e._edge.curveTypeInt ≠ 1 := by
      unfold GeomAbs_OtherCurve at h; omega
    have h2 : e._edge.curveTypeInt ≠ 2 := by
      unfold GeomAbs_OtherCurve at h; omega
    have h3 : e._edge.curveTypeInt ≠ 3 := by
      unfold GeomAbs_OtherCurve at h; omega
    have h4 : e._edge.curveTypeInt ≠ 4 := by
      unfold GeomAbs_OtherCurve at h; omega
    have h5 : e._edge.curveTypeInt ≠ 5 := by
      unfold GeomAbs_OtherCurve at h; omega
    have h6 : e._edge.curveTypeInt ≠ 6 := by
      unfold GeomAbs_OtherCurve at h; omega
    have h7 : e._edge.curveTypeInt ≠ 7 := by
      unfold GeomAbs_OtherCurve at h; omega
    simp [Edge.specific_curve, GeomAbs_Line, GeomAbs_Circle, GeomAbs_Ellipse,
      GeomAbs_Hyperbola, GeomAbs_Parabola, GeomAbs_BezierCurve, GeomAbs_BSplineCurve,
      GeomAbs_OffsetCurve, h0, h1, h2, h3, h4, h5, h6, h7]

/-- Witness for C1 amended: a line edge yields the line geometry and an
edge tagged `GeomAbs_OtherCurve` yields the tag-naming error. -/
theorem specific_curve_branches_w :
    lineShape.curveTypeInt = GeomAbs_Line ∧
    (Edge.mk lineShape).specific_curve = Except.ok SpecificCurve.line ∧
    GeomAbs_OtherCurve ≤ otherCurveShape.curveTypeInt ∧
    (Edge.mk otherCurveShape).specific_curve =
      Except.error (PyErr.valueError "Unknown curve type: " otherCurveShape.curveTypeInt) :=
  ⟨rfl,
   (specific_curve_branches (Edge.mk lineShape)).1 rfl,
   Nat.le_refl 8,
   (specific_curve_branches (Edge.mk otherCurveShape)).2.2.2.2.2.2.2.2 (Nat.le_refl 8)⟩

/-- C2 counterexample: on a curve-type tag outside the recognized set (9),
`curve_type()` returns the fallback string "unknown" instead of raising. -/
theorem curve_type_unknown_fallback :
    unknownTagShape.curveTypeInt = 9 ∧
    (Edge.mk unknownTagShape).curve_type = "unknown" :=
  ⟨rfl, rfl⟩

/-- C2 amended: `curve_type()` never raises — on a tag outside the nine
recognized values it returns the fallback string "unknown"; the named,
descriptive error identifying the offending tag is raised by
`specific_curve()` instead. -/
theorem curve_type_fallback_amended (e : Edge)
    (h : GeomAbs_OtherCurve < e._edge.curveTypeInt) :
    e.curve_type = "unknown" ∧
    e.specific_curve =
      Except.error (PyErr.valueError "Unknown curve type: " e._edge.curveTypeInt) := by
  have h0 : e._edge.curveTypeInt ≠ 0 := by unfold GeomAbs_OtherCurve at h; omega
  have h1 : e._edge.curveTypeInt ≠ 1 := by unfold GeomAbs_OtherCurve at h; omega
  have h2 : e._edge.curveTypeInt ≠ 2 := by unfold GeomAbs_OtherCurve at h; omega
  have h3 : e._edge.curveTypeInt ≠ 3 := by unfold GeomAbs_OtherCurve at h; omega
  have h4 : e._edge.curveTypeInt ≠ 4 := by unfold GeomAbs_OtherCurve at h; omega
  have h5 : e._edge.curveTypeInt ≠ 5 := by unfold GeomAbs_OtherCurve at h; omega
  have h6 : e._edge.curveTypeInt ≠ 6 := by unfold GeomAbs_OtherCurve at h; omega
  have h7 : e._edge.curveTypeInt ≠ 7 := by unfold GeomAbs_OtherCurve at h; omega
  have h8 : e._edge.curveTypeInt ≠ 8 := by unfold GeomAbs_OtherCurve at h; omega
  constructor
  · simp [Edge.curve_type, GeomAbs_Line, GeomAbs_Circle, GeomAbs_Ellipse,
      GeomAbs_Hyperbola, GeomAbs_Parabola, GeomAbs_BezierCurve, GeomAbs_BSplineCurve,
      GeomAbs_OffsetCurve, GeomAbs_OtherCurve, h0, h1, h2, h3, h4, h5, h6, h7, h8]
  · simp [Edge.specific_curve, GeomAbs_Line, GeomAbs_Circle, GeomAbs_Ellipse,
      GeomAbs_Hyperbola, GeomAbs_Parabola, GeomAbs_BezierCurve, GeomAbs_BSplineCurve,
      GeomAbs_OffsetCurve, h0, h1, h2, h3, h4, h5, h6, h7]

/-- Witness for C2 amended at the concrete out-of-enum tag 9. -/
theorem curve_type_fallback_amended_w :
    GeomAbs_OtherCurve < unknownTagShape.curveTypeInt ∧
    ((Edge.mk unknownTagShape).curve_type = "unknown" ∧
      (Edge.mk unknownTagShape).specific_curve =
        Except.error (PyErr.valueError "Unknown curve type: " unknownTagShape.curveTypeInt)) :=
  ⟨by decide, curve_type_fallback_amended (Edge.mk unknownTagShape) (by decide)⟩

/-- C4 counterexample: two vertex wrappers over structurally distinct
handles (different `shapeId`) at coincident coordinates whose bounded
kernel hash codes collide do compare equal under `Vertex.__eq__`. -/
theorem vertex_eq_hash_collision :
    vertHandleA ≠ vertHandleB ∧
    (Vertex.mk vertHandleA).point = (Vertex.mk vertHandleB).point ∧
    Vertex.eq (Vertex.mk vertHandleA) (Vertex.mk vertHandleB) = true := by
  refine ⟨?_, rfl, rfl⟩
  intro hh
  have hid := congrArg TopoDSShape.shapeId hh
  simp [vertHandleA, vertHandleB, baseShape] at hid

/-- C4 amended: `Vertex.__eq__` and `__hash__` are defined purely by the
wrapped handle's bounded kernel hash code and not by coordinate value —
two wrappers compare equal iff their handles' hash codes agree (so
structurally identical handles always compare equal, but coincident
vertices with distinct handles also compare equal whenever their hash
codes collide), and both queries ignore the stored coordinates. -/
theorem vertex_eq_by_hashcode (v w : Vertex) (p q : Vec3) :
    (Vertex.eq v w = true ↔ v._vertex.hashCode = w._vertex.hashCode) ∧
    (v._vertex = w._vertex → Vertex.eq v w = true) ∧
    (Vertex.hash v = v._vertex.hashCode) ∧
    (Vertex.eq (Vertex.mk { v._vertex with pnt := p })
        (Vertex.mk { w._vertex with pnt := q }) = Vertex.eq v w) ∧
    (Vertex.hash (Vertex.mk { v._vertex with pnt := p }) = Vertex.hash v) := by
  refine ⟨?_, ?_, rfl, rfl, rfl⟩
  · simp [Vertex.eq, Vertex.topods_vertex]
  · intro hh
    simp [Vertex.eq, Vertex.topods_vertex, hh]

/-- Witness for C4 amended at concrete vertices: a wrapper compares equal
to another wrapper of the identical handle, and equality transports to the
handles' hash codes. -/
theorem vertex_eq_by_hashcode_w :
    Vertex.eq (Vertex.mk vertHandleA) (Vertex.mk vertHandleA) = true ∧
    vertHandleA.hashCode = vertHandleA.hashCode :=
  ⟨(vertex_eq_by_hashcode (Vertex.mk vertHandleA) (Vertex.mk vertHandleA) vzero vzero).2.1 rfl,
   (vertex_eq_by_hashcode (Vertex.mk vertHandleA) (Vertex.mk vertHandleA) vzero vzero).1.mp rfl⟩

/-- C9: for every edge with a 3D curve and parameter with nonzero first
derivative, `tangent(u)` is the normalized first derivative, negated
exactly when `reversed()` holds, while `first_derivative(u)` reports the
kernel derivative unchanged and is independent of the edge's orientation. -/
theorem tangent_normalized_first_derivative (e : Edge) (u : ℝ) (o : Nat)
    (h : e.has_curve = true) (hd : e._edge.curveD1 u ≠ vzero) :
    e.first_derivative u = Except.ok (e._edge.curveD1 u) ∧
    e.tangent u = Except.ok
      (if e.reversed then
        vneg (vsmul (vnorm (e._edge.curveD1 u))⁻¹ (e._edge.curveD1 u))
      else vsmul (vnorm (e._edge.curveD1 u))⁻¹ (e._edge.curveD1 u)) ∧
    (Edge.mk { e._edge with orient := o }).first_derivative u =
      e.first_derivative u := by
  have hv : vnorm (e._edge.curveD1 u) ≠ 0 := by
    intro h0
    exact hd ((vnorm_eq_zero_iff _).mp h0)
  refine ⟨by simp [Edge.first_derivative, h], ?_, ?_⟩
  · simp [Edge.tangent, h, gpVecNormalize, hv]
  · simp [Edge.first_derivative, Edge.has_curve, Edge.topods_edge] at h ⊢

/-- Witness for C9 at a concrete reversed edge with derivative (3, 0, 0). -/
theorem tangent_normalized_first_derivative_w :
    (Edge.mk c9Shape).has_curve = true ∧
    c9Shape.curveD1 0 ≠ vzero ∧
    ((Edge.mk c9Shape).first_derivative 0 = Except.ok ((Edge.mk c9Shape)._edge.curveD1 0) ∧
      (Edge.mk c9Shape).tangent 0 = Except.ok
        (if (Edge.mk c9Shape).reversed then
          vneg (vsmul (vnorm ((Edge.mk c9Shape)._edge.curveD1 0))⁻¹
            ((Edge.mk c9Shape)._edge.curveD1 0))
        else vsmul (vnorm ((Edge.mk c9Shape)._edge.curveD1 0))⁻¹
          ((Edge.mk c9Shape)._edge.curveD1 0)) ∧
      (Edge.mk { (Edge.mk c9Shape)._edge with orient := 0 }).first_derivative 0 =
        (Edge.mk c9Shape).first_derivative 0) := by
  have hd : c9Shape.curveD1 0 ≠ vzero := by
    intro hh
    have hx := congrArg Vec3.x hh
    norm_num [c9Shape, baseShape, vzero] at hx
  exact ⟨rfl, hd, tangent_normalized_first_derivative (Edge.mk c9Shape) 0 0 rfl hd⟩

end Occwl
